import Mathlib

/-!
Shallow embedding of the reconciliation core of terraform-provider-switchcloud.

The embedding mirrors, definition by definition, the Go source:
* `internal/provider/provider.go` — provider configuration and the
  `authenticatedTransport` decorator;
* the project resource (`ProjectResource`: Create/Read/Update/Delete/Import);
* the project member resource (`ProjectMemberResource`:
  ValidateConfig/Create/Read/Update/Delete/ImportState);
* the project data source (`ProjectDataSource.Read`).

Terraform framework values (`types.String`, `types.Bool`) are modelled as the
three-state `TfString`/`TfBool`. Each CRUD operation is split, following the
straight-line structure of its Go body, into the request it builds
(`…Request`) and the handling of the remote response (`…Handle`): the
response is given at the decoded level, as a status code, the raw body
string, and the result of `json.Unmarshal` on that body (`Option β`, `none`
for a parse failure). JSON marshalling of request bodies is modelled as the
list of emitted fields, respecting the `omitempty` tags of the source.
-/

/-- Three-state string value of the terraform plugin framework
(`types.String`): a known value, null, or unknown. -/
inductive TfString where
  | value : String → TfString
  | null : TfString
  | unknown : TfString
deriving DecidableEq, Repr

/-- Mirrors `types.String.IsNull()`. -/
def TfString.isNull : TfString → Bool
  | .null => true
  | _ => false

/-- Mirrors `types.String.IsUnknown()`. -/
def TfString.isUnknown : TfString → Bool
  | .unknown => true
  | _ => false

/-- Mirrors `types.String.ValueString()`: the known value, `""` for null or
unknown. -/
def TfString.valueString : TfString → String
  | .value s => s
  | _ => ""

/-- Three-state boolean value of the terraform plugin framework
(`types.Bool`). -/
inductive TfBool where
  | value : Bool → TfBool
  | null : TfBool
  | unknown : TfBool
deriving DecidableEq, Repr

/-- One framework diagnostic, as added by `resp.Diagnostics.AddError(summary,
detail)`. -/
structure Diagnostic where
  summary : String
  detail : String
deriving DecidableEq, Repr

/-- The diagnostic the resources add with summary `"Client Error"`. -/
def clientError (detail : String) : Diagnostic :=
  { summary := "Client Error", detail := detail }

/-- The detail text `fmt.Sprintf("API returned status %d: %s", status, body)`
shared by every non-2xx branch of the source. -/
def apiStatusDetail (status : Nat) (body : String) : String :=
  "API returned status " ++ toString status ++ ": " ++ body

/-- The diagnostic added when `json.Unmarshal` fails; the source appends the
Go error text, which is outside the model. -/
def parseError : Diagnostic :=
  clientError "Unable to parse response"

/-- An outgoing HTTP request: method, URL, headers, and the JSON body as the
list of fields the marshaller emits (empty for GET/DELETE). -/
structure HttpRequest where
  method : String
  url : String
  headers : List (String × String)
  body : List (String × String)
deriving DecidableEq, Repr

/-- An HTTP response as the transport delivers it: status code and raw
body. -/
structure HttpResponse where
  status : Nat
  raw : String
deriving DecidableEq, Repr

/-- A remote response as a resource operation consumes it: the status code,
the raw body (`io.ReadAll`), and the result of `json.Unmarshal` of that body
against the expected shape `β` (`none` when unmarshalling fails). -/
structure RemoteResponse (β : Type) where
  status : Nat
  raw : String
  parsed : Option β
deriving DecidableEq, Repr

/-- Mirrors Go `strings.TrimSuffix`: removes one trailing occurrence of the
suffix, phrased over the character lists of the strings. -/
def trimSuffix (s suffixStr : String) : String :=
  if suffixStr.data.isSuffixOf s.data then
    String.mk (s.data.take (s.data.length - suffixStr.data.length))
  else s

/-- Mirrors Go `strings.Split` for a one-character separator, over the
character list of the string: `Split("", sep) = [""]`, and a trailing or
leading separator yields an empty segment. -/
def splitOnChar (c : Char) : List Char → List (List Char)
  | [] => [[]]
  | x :: xs =>
    if x = c then [] :: splitOnChar c xs
    else
      match splitOnChar c xs with
      | [] => [[x]]
      | y :: ys => (x :: y) :: ys

/-- Go `strings.Split(s, sep)` for the one-character separator `c`. -/
def stringsSplit (s : String) (c : Char) : List String :=
  (splitOnChar c s.toList).map (fun l => String.mk l)

/-- `http.Header.Set`: replaces any existing value under the key. -/
def HttpRequest.setHeader (req : HttpRequest) (key val : String) : HttpRequest :=
  { req with headers := (key, val) :: req.headers.filter (fun kv => kv.fst != key) }

/-- Outcome of a Create call: the model saved to state, or an error
diagnostic with no state saved. -/
inductive CreateResult (M : Type) where
  | ok : M → CreateResult M
  | failed : Diagnostic → CreateResult M
deriving DecidableEq, Repr

/-- Outcome of a Read call: `removed` (`resp.State.RemoveResource`, no
diagnostic), the refreshed model saved to state, or an error diagnostic with
the prior state left unchanged. -/
inductive ReadResult (M : Type) where
  | removed : ReadResult M
  | ok : M → ReadResult M
  | failed : Diagnostic → ReadResult M
deriving DecidableEq, Repr

/-- Outcome of a Delete call: success (tracking removed) or an error
diagnostic. -/
inductive DeleteResult where
  | ok : DeleteResult
  | failed : Diagnostic → DeleteResult
deriving DecidableEq, Repr

/-- Outcome of an Update call. -/
inductive UpdateResult (M : Type) where
  | ok : M → UpdateResult M
  | failed : Diagnostic → UpdateResult M
deriving DecidableEq, Repr

/-- Outcome of an ImportState call: rejected import identifier (before any
network call), or the Read-like outcomes. -/
inductive ImportResult (M : Type) where
  | malformed : Diagnostic → ImportResult M
  | removed : ImportResult M
  | ok : M → ImportResult M
  | failed : Diagnostic → ImportResult M
deriving DecidableEq, Repr

/-! ## Project member resource (`ProjectMemberResource`) -/

/-- `ProjectMemberResourceModel`: the terraform model of one project
membership. -/
structure ProjectMemberResourceModel where
  id : TfString
  projectId : TfString
  userId : TfString
  email : TfString
  displayName : TfString
deriving DecidableEq, Repr

/-- The zero value of `ProjectMemberResourceModel` (`var data
ProjectMemberResourceModel`): every `types.String` field is null. -/
def ProjectMemberResourceModel.zero : ProjectMemberResourceModel :=
  { id := .null, projectId := .null, userId := .null, email := .null,
    displayName := .null }

/-- `ProjectMemberUser`: the nested `user` object of the API response. -/
structure ProjectMemberUser where
  id : String
  email : String
  displayName : String
deriving DecidableEq, Repr

/-- `ProjectMember`: the API response structure. -/
structure ProjectMember where
  id : String
  projectId : String
  userId : String
  user : ProjectMemberUser
deriving DecidableEq, Repr

/-- `ProjectMemberCreateRequest`: the request body for creating a project
member; both fields carry `omitempty`. -/
structure ProjectMemberCreateRequest where
  userId : String
  email : String
deriving DecidableEq, Repr

/-- The JSON fields `json.Marshal` emits for a `ProjectMemberCreateRequest`:
`omitempty` drops a field whose value is the empty string. -/
def ProjectMemberCreateRequest.jsonFields (r : ProjectMemberCreateRequest) :
    List (String × String) :=
  (if r.userId = "" then [] else [("user_id", r.userId)])
    ++ (if r.email = "" then [] else [("email", r.email)])

/-- `ProjectMemberResource.ValidateConfig`: either `user_id` or `email` must
be provided, and not both; each violation adds a `Configuration Error`
diagnostic. No HTTP request is involved. -/
def ProjectMemberResource.validateConfig (config : ProjectMemberResourceModel) :
    List Diagnostic :=
  (if config.userId.isNull && config.email.isNull then
    [{ summary := "Configuration Error",
       detail := "Either \'user_id\' or \'email\' must be provided for a project member." }]
   else [])
    ++ (if !config.userId.isNull && !config.email.isNull then
      [{ summary := "Configuration Error",
         detail := "Only one of \'user_id\' or \'email\' can be provided for a project member." }]
     else [])

/-- The POST request `ProjectMemberResource.Create` builds: the body is the
`ProjectMemberCreateRequest` chosen by checking `data.UserId.IsUnknown()`
only — the email value when `user_id` is unknown, the `user_id` value
otherwise. -/
def ProjectMemberResource.createRequest (endpoint : String)
    (data : ProjectMemberResourceModel) : HttpRequest :=
  let createRequest : ProjectMemberCreateRequest :=
    if data.userId.isUnknown then
      { userId := "", email := data.email.valueString }
    else
      { userId := data.userId.valueString, email := "" }
  { method := "POST"
    url := trimSuffix endpoint "/" ++ "/api/v1/projects/"
      ++ data.projectId.valueString ++ "/members"
    headers := [("Content-Type", "application/json"), ("Accept", "application/json")]
    body := createRequest.jsonFields }

/-- Response handling of `ProjectMemberResource.Create`: only status 201 is
success; on success every model field is overwritten from the response. -/
def ProjectMemberResource.createHandle (data : ProjectMemberResourceModel)
    (resp : RemoteResponse ProjectMember) : CreateResult ProjectMemberResourceModel :=
  if resp.status ≠ 201 then
    .failed (clientError (apiStatusDetail resp.status resp.raw))
  else
    match resp.parsed with
    | none => .failed parseError
    | some projectMember =>
      .ok { data with
        id := .value projectMember.id
        projectId := .value projectMember.projectId
        userId := .value projectMember.userId
        email := .value projectMember.user.email
        displayName := .value projectMember.user.displayName }

/-- The GET request `ProjectMemberResource.Read` builds, addressed by the
composite identity `project_id`/`id` of the prior state. -/
def ProjectMemberResource.readRequest (endpoint : String)
    (data : ProjectMemberResourceModel) : HttpRequest :=
  { method := "GET"
    url := trimSuffix endpoint "/" ++ "/api/v1/projects/"
      ++ data.projectId.valueString ++ "/members/" ++ data.id.valueString
    headers := [("Accept", "application/json")]
    body := [] }

/-- Response handling of `ProjectMemberResource.Read`: 404 removes the
resource from state without a diagnostic; any other non-200 status is an
error (the prior state is kept); 200 overwrites every field from the
response. -/
def ProjectMemberResource.readHandle (data : ProjectMemberResourceModel)
    (resp : RemoteResponse ProjectMember) : ReadResult ProjectMemberResourceModel :=
  if resp.status = 404 then .removed
  else if resp.status ≠ 200 then
    .failed (clientError (apiStatusDetail resp.status resp.raw))
  else
    match resp.parsed with
    | none => .failed parseError
    | some projectMember =>
      .ok { data with
        id := .value projectMember.id
        projectId := .value projectMember.projectId
        userId := .value projectMember.userId
        email := .value projectMember.user.email
        displayName := .value projectMember.user.displayName }

/-- `ProjectMemberResource.Update` adds one `API Error` diagnostic and
returns; it issues no HTTP request (the empty request list) and saves no
state. -/
def ProjectMemberResource.update (_prior _plan : ProjectMemberResourceModel) :
    UpdateResult ProjectMemberResourceModel × List HttpRequest :=
  (.failed { summary := "API Error",
             detail := "Unable to update project member, method is not implemented on server" },
   [])

/-- The DELETE request `ProjectMemberResource.Delete` builds. -/
def ProjectMemberResource.deleteRequest (endpoint : String)
    (data : ProjectMemberResourceModel) : HttpRequest :=
  { method := "DELETE"
    url := trimSuffix endpoint "/" ++ "/api/v1/projects/"
      ++ data.projectId.valueString ++ "/members/" ++ data.id.valueString
    headers := [("Accept", "application/json")]
    body := [] }

/-- Response handling of `ProjectMemberResource.Delete`: any status other
than 204 (No Content) — 404 included — adds an error diagnostic. -/
def ProjectMemberResource.deleteHandle (resp : RemoteResponse ProjectMember) :
    DeleteResult :=
  if resp.status ≠ 204 then
    .failed (clientError (apiStatusDetail resp.status resp.raw))
  else .ok

/-- The diagnostic `ProjectMemberResource.ImportState` adds for an import
identifier that does not split into exactly two segments. -/
def ProjectMemberResource.importMalformedDiag (reqID : String) : Diagnostic :=
  { summary := "Unexpected Import Identifier",
    detail := "Expected import identifier with format: project_id/member_id. Got: " ++ reqID }

/-- The parsing step of `ProjectMemberResource.ImportState`:
`strings.Split(req.ID, "/")` accepted exactly when it has two parts
(`len(parts) != 2` is the only rejection); the parts themselves are not
inspected, so empty segments pass. -/
def ProjectMemberResource.importParse (reqID : String) : Option (String × String) :=
  match stringsSplit reqID '/' with
  | [projectId, memberId] => some (projectId, memberId)
  | _ => none

/-- The GET request `ProjectMemberResource.ImportState` issues after parsing.
The source stores the parsed parts into the response state but builds the
URL from the local `data` model, which is still its zero value at that
point: both path segments come from `ProjectMemberResourceModel.zero`, not
from the parsed `projectId`/`memberId`. -/
def ProjectMemberResource.importRequest (endpoint reqID : String) :
    Option HttpRequest :=
  match ProjectMemberResource.importParse reqID with
  | none => none
  | some _ =>
    some { method := "GET"
           url := trimSuffix endpoint "/" ++ "/api/v1/projects/"
             ++ ProjectMemberResourceModel.zero.projectId.valueString
             ++ "/members/" ++ ProjectMemberResourceModel.zero.id.valueString
           headers := [("Accept", "application/json")]
           body := [] }

/-- `ProjectMemberResource.ImportState` end to end: malformed identifier
before any network call, then the Read-like handling of the response to
`importRequest`, rebuilding the model (from its zero value) out of the
response fields. -/
def ProjectMemberResource.importState (reqID : String)
    (resp : RemoteResponse ProjectMember) : ImportResult ProjectMemberResourceModel :=
  match ProjectMemberResource.importParse reqID with
  | none => .malformed (ProjectMemberResource.importMalformedDiag reqID)
  | some _ =>
    if resp.status = 404 then .removed
    else if resp.status ≠ 200 then
      .failed (clientError (apiStatusDetail resp.status resp.raw))
    else
      match resp.parsed with
      | none => .failed parseError
      | some projectMember =>
        .ok { ProjectMemberResourceModel.zero with
          id := .value projectMember.id
          projectId := .value projectMember.projectId
          userId := .value projectMember.userId
          email := .value projectMember.user.email
          displayName := .value projectMember.user.displayName }

/-! ## Project resource (`ProjectResource`) -/

/-- `ProjectResourceModel`: the terraform model of one project. -/
structure ProjectResourceModel where
  id : TfString
  name : TfString
  description : TfString
  organisationId : TfString
  archived : TfBool
  archivedAt : TfString
  createdAt : TfString
  updatedAt : TfString
deriving DecidableEq, Repr

/-- `Project`: the API response structure; `description` and `archived_at`
carry `omitempty`, so an omitted field decodes to the empty string. -/
structure Project where
  id : String
  name : String
  description : String
  organisationId : String
  archived : Bool
  archivedAt : String
  createdAt : String
  updatedAt : String
deriving DecidableEq, Repr

/-- `ProjectCreateRequest`: the request body for creating a project;
`description` carries `omitempty`. -/
structure ProjectCreateRequest where
  name : String
  description : String
deriving DecidableEq, Repr

/-- The JSON fields `json.Marshal` emits for a `ProjectCreateRequest`:
`name` always, `description` only when non-empty (`omitempty`). -/
def ProjectCreateRequest.jsonFields (r : ProjectCreateRequest) :
    List (String × String) :=
  [("name", r.name)]
    ++ (if r.description = "" then [] else [("description", r.description)])

/-- The POST request `ProjectResource.Create` builds: `Name` always from the
plan; `Description` only when the planned description is not null. -/
def ProjectResource.createRequest (endpoint : String)
    (data : ProjectResourceModel) : HttpRequest :=
  let createRequest : ProjectCreateRequest :=
    { name := data.name.valueString
      description := if !data.description.isNull then data.description.valueString else "" }
  { method := "POST"
    url := trimSuffix endpoint "/" ++ "/api/v1/projects"
    headers := [("Content-Type", "application/json"), ("Accept", "application/json")]
    body := createRequest.jsonFields }

/-- Response handling of `ProjectResource.Create`: only status 201 is
success; on success every model field — computed and input alike — is
overwritten with `types.StringValue`/`types.BoolValue` of the response
field, so every resulting attribute is a known value. -/
def ProjectResource.createHandle (data : ProjectResourceModel)
    (resp : RemoteResponse Project) : CreateResult ProjectResourceModel :=
  if resp.status ≠ 201 then
    .failed (clientError (apiStatusDetail resp.status resp.raw))
  else
    match resp.parsed with
    | none => .failed parseError
    | some project =>
      .ok { data with
        id := .value project.id
        name := .value project.name
        description := .value project.description
        organisationId := .value project.organisationId
        archived := .value project.archived
        archivedAt := .value project.archivedAt
        createdAt := .value project.createdAt
        updatedAt := .value project.updatedAt }

/-- The GET request `ProjectResource.Read` builds, addressed by `id`. -/
def ProjectResource.readRequest (endpoint : String)
    (data : ProjectResourceModel) : HttpRequest :=
  { method := "GET"
    url := trimSuffix endpoint "/" ++ "/api/v1/projects/" ++ data.id.valueString
    headers := [("Accept", "application/json")]
    body := [] }

/-- Response handling of `ProjectResource.Read`: 404 removes the resource
from state without a diagnostic; any other non-200 status is an error (the
prior state is kept); 200 overwrites every field from the response. -/
def ProjectResource.readHandle (data : ProjectResourceModel)
    (resp : RemoteResponse Project) : ReadResult ProjectResourceModel :=
  if resp.status = 404 then .removed
  else if resp.status ≠ 200 then
    .failed (clientError (apiStatusDetail resp.status resp.raw))
  else
    match resp.parsed with
    | none => .failed parseError
    | some project =>
      .ok { data with
        id := .value project.id
        name := .value project.name
        description := .value project.description
        organisationId := .value project.organisationId
        archived := .value project.archived
        archivedAt := .value project.archivedAt
        createdAt := .value project.createdAt
        updatedAt := .value project.updatedAt }

/-- `ProjectResource.Update` adds one `API Error` diagnostic and returns; it
issues no HTTP request and saves no state. -/
def ProjectResource.update (_prior _plan : ProjectResourceModel) :
    UpdateResult ProjectResourceModel × List HttpRequest :=
  (.failed { summary := "API Error",
             detail := "Unable to update project, method is not implemented on server" },
   [])

/-- `ProjectResource.Delete` adds one `API Error` diagnostic and returns; it
issues no HTTP request. -/
def ProjectResource.delete (_data : ProjectResourceModel) :
    DeleteResult × List HttpRequest :=
  (.failed { summary := "API Error",
             detail := "Unable to delete project, method is not implemented on server" },
   [])

/-! ## Project data source (`ProjectDataSource`) -/

/-- `ProjectDataSourceModel`: the terraform model of the project data
source; `name` is the required lookup argument, everything else is
computed. -/
structure ProjectDataSourceModel where
  id : TfString
  name : TfString
  description : TfString
  organisationId : TfString
  archived : TfBool
  archivedAt : TfString
  createdAt : TfString
  updatedAt : TfString
deriving DecidableEq, Repr

/-- The one GET request `ProjectDataSource.Read` builds: the collection
endpoint, a function of the configured endpoint only — no model attribute,
in particular not `id`, enters the URL. -/
def ProjectDataSource.readRequest (endpoint : String) : HttpRequest :=
  { method := "GET"
    url := trimSuffix endpoint "/" ++ "/api/v1/projects"
    headers := [("Accept", "application/json")]
    body := [] }

/-- Response handling of `ProjectDataSource.Read`: non-200 is an error; on
200 the decoded list is scanned for the first project whose `name` equals
the configured name; no match adds a `Not Found` error diagnostic (there is
no remove-from-state outcome in this data source); a match overwrites every
model field from that project. -/
def ProjectDataSource.readHandle (data : ProjectDataSourceModel)
    (resp : RemoteResponse (List Project)) : ReadResult ProjectDataSourceModel :=
  if resp.status ≠ 200 then
    .failed (clientError (apiStatusDetail resp.status resp.raw))
  else
    match resp.parsed with
    | none => .failed parseError
    | some projects =>
      match projects.find? (fun p => p.name == data.name.valueString) with
      | none =>
        .failed { summary := "Not Found",
                  detail := "No project found with name: " ++ data.name.valueString }
      | some project =>
        .ok { data with
          id := .value project.id
          name := .value project.name
          description := .value project.description
          organisationId := .value project.organisationId
          archived := .value project.archived
          archivedAt := .value project.archivedAt
          createdAt := .value project.createdAt
          updatedAt := .value project.updatedAt }

/-! ## Provider configuration and authenticated transport -/

/-- `authenticatedTransport`: the API key and the wrapped transport — its
only two fields, so the decorator holds no other state. The wrapped
transport is modelled as a function from request to response. -/
structure AuthenticatedTransport where
  apiKey : String
  transport : HttpRequest → HttpResponse

/-- The request the decorator hands to the wrapped transport: the incoming
request with the `Authorization` header set to `"Bearer " + apiKey`. -/
def AuthenticatedTransport.authRequest (t : AuthenticatedTransport)
    (req : HttpRequest) : HttpRequest :=
  req.setHeader "Authorization" ("Bearer " ++ t.apiKey)

/-- `authenticatedTransport.RoundTrip`: set the header, then one call to the
wrapped transport. -/
def AuthenticatedTransport.roundTrip (t : AuthenticatedTransport)
    (req : HttpRequest) : HttpResponse :=
  t.transport (t.authRequest req)

/-- The requests `RoundTrip` passes to the wrapped transport for one
incoming request: its body is one unconditional call, so the trace is the
one-element list — no retry on any status, 401 included. -/
def AuthenticatedTransport.forwardedRequests (t : AuthenticatedTransport)
    (req : HttpRequest) : List HttpRequest :=
  [t.authRequest req]

/-- The client `SwitchcloudProvider.Configure` builds: the API key from the
`SWITCHCLOUD_API_KEY` environment variable when set (`os.Getenv` returns
`""` when unset), else from the configuration; when the resulting key is
null the default transport is used unchanged, otherwise requests go through
`authenticatedTransport`. -/
def SwitchcloudProvider.configureTransport (configApiKey : TfString)
    (envApiKey : String) (base : HttpRequest → HttpResponse) :
    HttpRequest → HttpResponse :=
  let apiKey := if envApiKey ≠ "" then TfString.value envApiKey else configApiKey
  if apiKey.isNull then base
  else AuthenticatedTransport.roundTrip { apiKey := apiKey.valueString, transport := base }

/-! ## Claim theorems -/

/-- The desired project of the concrete Create scenario: `name` known as
`"Test Project"`, `description` unknown, every computed attribute unknown at
plan time. -/
def testProjectDesired : ProjectResourceModel :=
  { id := .unknown, name := .value "Test Project", description := .unknown,
    organisationId := .unknown, archived := .unknown, archivedAt := .unknown,
    createdAt := .unknown, updatedAt := .unknown }

/-- The remote answer of the concrete Create scenario: 201, the server
assigns `id="p1"`, `organisation_id="org1"`, timestamps `t0`, echoes the
name and omits `description` (an omitted `omitempty` field decodes to
`""`). -/
def testProjectResponse : RemoteResponse Project :=
  { status := 201, raw := "",
    parsed := some { id := "p1", name := "Test Project", description := "",
                     organisationId := "org1", archived := false, archivedAt := "",
                     createdAt := "t0", updatedAt := "t0" } }

/-- C1, counterexample: in the claimed scenario, Create does not return the
claimed object whose `description` attribute is Null — the code overwrites
`description` with `types.StringValue` of the response field, a known empty
string, never a null. -/
theorem c1_create_description_counterexample :
    ProjectResource.createHandle testProjectDesired testProjectResponse ≠
      CreateResult.ok
        { id := .value "p1", name := .value "Test Project",
          description := TfString.null, organisationId := .value "org1",
          archived := .value false, archivedAt := .value "",
          createdAt := .value "t0", updatedAt := .value "t0" } := by decide

/-- C1, amended: the scenario sends the body `name="Test Project"` only
(the unknown description marshals to the omitted empty string) and returns
the Object `id="p1"`, `name="Test Project"`, `description=Known("")`,
`organisation_id="org1"`, `archived=false`, timestamps `t0`: the
description is a known empty string, not Null, and every attribute — the
Input attribute `name` included — is taken from the remote response (which
here echoes the desired name). -/
theorem c1_create_concrete_scenario :
    ProjectResource.createRequest "https://api.example.com" testProjectDesired =
      { method := "POST", url := "https://api.example.com/api/v1/projects",
        headers := [("Content-Type", "application/json"), ("Accept", "application/json")],
        body := [("name", "Test Project")] }
    ∧ ProjectResource.createHandle testProjectDesired testProjectResponse =
      CreateResult.ok
        { id := .value "p1", name := .value "Test Project",
          description := .value "", organisationId := .value "org1",
          archived := .value false, archivedAt := .value "",
          createdAt := .value "t0", updatedAt := .value "t0" } := by
  exact ⟨by decide, by decide⟩

/-- C2, code evaluated at the failing input: for the well-formed import
identifier `"proj-1/mem-9"`, `ImportState` issues its GET against
`/api/v1/projects//members/` — both path segments empty, because the URL is
built from the still-zero `data` model instead of the parsed segments —
whereas Read at the parsed identity addresses
`/api/v1/projects/proj-1/members/mem-9`. -/
theorem c2_import_url_built_from_zero_model :
    ProjectMemberResource.importParse "proj-1/mem-9" = some ("proj-1", "mem-9")
    ∧ ProjectMemberResource.importRequest "https://api.example.com" "proj-1/mem-9" =
      some { method := "GET",
             url := "https://api.example.com/api/v1/projects//members/",
             headers := [("Accept", "application/json")], body := [] }
    ∧ (ProjectMemberResource.readRequest "https://api.example.com"
        { ProjectMemberResourceModel.zero with
            projectId := .value "proj-1", id := .value "mem-9" }).url =
      "https://api.example.com/api/v1/projects/proj-1/members/mem-9" := by
  exact ⟨by decide, by decide, by decide⟩

/-- The remote answer to a delete of an already-absent member: the server
answers 404. -/
def memberDeleteGone : RemoteResponse ProjectMember :=
  { status := 404, raw := "Project Member not found", parsed := none }

/-- C3, counterexample: a 404 answer to the delete request is not treated
as already-absent — `Delete` accepts only 204, so the 404 adds an error
diagnostic instead of succeeding. -/
theorem c3_delete_404_counterexample :
    ProjectMemberResource.deleteHandle memberDeleteGone =
      DeleteResult.failed (clientError (apiStatusDetail 404 "Project Member not found"))
    ∧ ProjectMemberResource.deleteHandle memberDeleteGone ≠ DeleteResult.ok := by
  exact ⟨by decide, by decide⟩

/-- C3, amended: membership Delete succeeds exactly when the remote answers
204 No Content; every other status — a 404-equivalent included — is
reported as a failure diagnostic carrying the status code and raw body, so
delete of an already-absent member fails rather than succeeding
(idempotency does not hold). -/
theorem c3_delete_only_204_succeeds (resp : RemoteResponse ProjectMember) :
    (ProjectMemberResource.deleteHandle resp = DeleteResult.ok ↔ resp.status = 204)
    ∧ (resp.status ≠ 204 →
        ProjectMemberResource.deleteHandle resp =
          DeleteResult.failed (clientError (apiStatusDetail resp.status resp.raw))) := by
  unfold ProjectMemberResource.deleteHandle
  by_cases h : resp.status = 204 <;> simp [h]

/-- Witness for `c3_delete_only_204_succeeds` at the 404 answer. -/
theorem c3_delete_only_204_succeeds_witness :
    ProjectMemberResource.deleteHandle memberDeleteGone =
      DeleteResult.failed (clientError (apiStatusDetail memberDeleteGone.status memberDeleteGone.raw)) :=
  (c3_delete_only_204_succeeds memberDeleteGone).2 (by decide)

/-- C4: membership validation fails with `Configuration Error` diagnostics
exactly when neither or both of `user_id` and `email` are supplied
(non-null), and passes — the empty diagnostic list — when exactly one of
the two is supplied; `ValidateConfig` involves no HTTP request at all, so
the failure happens before anything is sent. -/
theorem c4_validate_exactly_one (config : ProjectMemberResourceModel) :
    ((config.userId.isNull && config.email.isNull) = true
        ∨ (!config.userId.isNull && !config.email.isNull) = true →
      ProjectMemberResource.validateConfig config ≠ []
        ∧ ∀ d ∈ ProjectMemberResource.validateConfig config,
            d.summary = "Configuration Error")
    ∧ (config.userId.isNull ≠ config.email.isNull →
      ProjectMemberResource.validateConfig config = []) := by
  obtain ⟨i, p, u, e, n⟩ := config
  cases u <;> cases e <;>
    simp [ProjectMemberResource.validateConfig, TfString.isNull]

/-- Witness for `c4_validate_exactly_one`: the all-null configuration fails
validation, and a configuration supplying only `user_id` passes. -/
theorem c4_validate_exactly_one_witness :
    ProjectMemberResource.validateConfig ProjectMemberResourceModel.zero ≠ []
    ∧ ProjectMemberResource.validateConfig
        { ProjectMemberResourceModel.zero with userId := .value "user-12345" } = [] := by
  refine ⟨((c4_validate_exactly_one ProjectMemberResourceModel.zero).1 ?_).1,
          (c4_validate_exactly_one
            { ProjectMemberResourceModel.zero with userId := .value "user-12345" }).2 ?_⟩
  · exact Or.inl (by decide)
  · decide

/-- C5: for both kinds, a 404 answer to the Read request yields the
removed-from-state outcome with no diagnostic, while any other non-200
status — in particular every other non-2xx status — yields a failure
diagnostic carrying the status code and the raw body; the failure outcome
carries no refreshed model, so the tracked state is left as it was. -/
theorem c5_read_404_absent_other_status_failure (pdata : ProjectResourceModel)
    (mdata : ProjectMemberResourceModel) (status : Nat) (raw : String)
    (pparsed : Option Project) (mparsed : Option ProjectMember)
    (h404 : status ≠ 404) (h200 : status ≠ 200) :
    ProjectResource.readHandle pdata { status := 404, raw := raw, parsed := pparsed } =
      ReadResult.removed
    ∧ ProjectMemberResource.readHandle mdata { status := 404, raw := raw, parsed := mparsed } =
      ReadResult.removed
    ∧ ProjectResource.readHandle pdata { status := status, raw := raw, parsed := pparsed } =
      ReadResult.failed (clientError (apiStatusDetail status raw))
    ∧ ProjectMemberResource.readHandle mdata { status := status, raw := raw, parsed := mparsed } =
      ReadResult.failed (clientError (apiStatusDetail status raw)) := by
  refine ⟨?_, ?_, ?_, ?_⟩ <;>
    simp [ProjectResource.readHandle, ProjectMemberResource.readHandle, h404, h200]

/-- Witness for `c5_read_404_absent_other_status_failure` at status 500. -/
theorem c5_read_404_absent_other_status_failure_witness :
    ProjectResource.readHandle testProjectDesired { status := 404, raw := "gone", parsed := none } =
      ReadResult.removed
    ∧ ProjectMemberResource.readHandle ProjectMemberResourceModel.zero
        { status := 404, raw := "gone", parsed := none } = ReadResult.removed
    ∧ ProjectResource.readHandle testProjectDesired { status := 500, raw := "gone", parsed := none } =
      ReadResult.failed (clientError (apiStatusDetail 500 "gone"))
    ∧ ProjectMemberResource.readHandle ProjectMemberResourceModel.zero
        { status := 500, raw := "gone", parsed := none } =
      ReadResult.failed (clientError (apiStatusDetail 500 "gone")) :=
  c5_read_404_absent_other_status_failure testProjectDesired
    ProjectMemberResourceModel.zero 500 "gone" none none (by decide) (by decide)

/-- C6: for both kinds and every pair of prior and planned models, Update
returns the one `API Error` diagnostic with no saved state, and the list of
HTTP requests it issues is empty — nothing remote or tracked is touched. -/
theorem c6_update_always_unsupported (pprior pplan : ProjectResourceModel)
    (mprior mplan : ProjectMemberResourceModel) :
    ProjectResource.update pprior pplan =
      (UpdateResult.failed
        { summary := "API Error",
          detail := "Unable to update project, method is not implemented on server" }, [])
    ∧ ProjectMemberResource.update mprior mplan =
      (UpdateResult.failed
        { summary := "API Error",
          detail := "Unable to update project member, method is not implemented on server" }, []) :=
  ⟨rfl, rfl⟩

/-- Any split produces at least one segment. -/
theorem splitOnChar_ne_nil (c : Char) (l : List Char) : splitOnChar c l ≠ [] := by
  induction l with
  | nil => simp [splitOnChar]
  | cons x xs ih =>
    by_cases hx : x = c
    · simp [splitOnChar, hx]
    · simp only [splitOnChar, if_neg hx]
      rcases h : splitOnChar c xs with _ | ⟨y, ys⟩ <;> simp [h]

/-- A split has one more segment than the string has separators. -/
theorem length_splitOnChar (c : Char) (l : List Char) :
    (splitOnChar c l).length = l.count c + 1 := by
  induction l with
  | nil => simp [splitOnChar]
  | cons x xs ih =>
    by_cases hx : x = c
    · simp [splitOnChar, hx, ih, List.count_cons]
    · simp only [splitOnChar, if_neg hx]
      rcases h : splitOnChar c xs with _ | ⟨y, ys⟩
      · exact absurd h (splitOnChar_ne_nil c xs)
      · rw [h] at ih
        simp only [List.length_cons] at ih
        simp [List.count_cons, hx, ih]

/-- C7, counterexample: the identifier `"proj-1/"` has an empty second
segment, yet import does not fail with the malformed-identifier diagnostic:
parsing accepts it (two segments, one empty), the GET request is issued,
and the 404 the empty-segment URL provokes silently removes the resource
instead. -/
theorem c7_empty_segment_accepted_counterexample :
    ProjectMemberResource.importParse "proj-1/" = some ("proj-1", "")
    ∧ ProjectMemberResource.importRequest "https://api.example.com" "proj-1/" ≠ none
    ∧ ProjectMemberResource.importState "proj-1/"
        { status := 404, raw := "", parsed := none } = ImportResult.removed := by
  exact ⟨by decide, by decide, by decide⟩

/-- C7, amended: a membership import identifier is accepted exactly when it
contains exactly one `/` — two `/`-separated segments that may be empty
(emptiness is not checked); any other segment count fails with the
malformed-identifier diagnostic, and then no GET request is built, so no
network call is made. -/
theorem c7_import_exactly_two_segments (reqID endpoint : String)
    (resp : RemoteResponse ProjectMember) :
    (ProjectMemberResource.importParse reqID = none ↔ reqID.toList.count '/' ≠ 1)
    ∧ (reqID.toList.count '/' ≠ 1 →
        ProjectMemberResource.importRequest endpoint reqID = none
        ∧ ProjectMemberResource.importState reqID resp =
            ImportResult.malformed (ProjectMemberResource.importMalformedDiag reqID)) := by
  have hlen : (stringsSplit reqID '/').length = reqID.toList.count '/' + 1 := by
    simp [stringsSplit, length_splitOnChar]
  have hnone : ProjectMemberResource.importParse reqID = none ↔
      (stringsSplit reqID '/').length ≠ 2 := by
    unfold ProjectMemberResource.importParse
    generalize stringsSplit reqID '/' = parts
    rcases parts with _ | ⟨a, _ | ⟨b, _ | ⟨x, xs⟩⟩⟩ <;> simp
  constructor
  · rw [hnone, hlen]; omega
  · intro h
    have hp : ProjectMemberResource.importParse reqID = none := by
      rw [hnone, hlen]; omega
    exact ⟨by simp [ProjectMemberResource.importRequest, hp],
           by simp [ProjectMemberResource.importState, hp]⟩

/-- The desired membership that supplies its identity through a known
`email` while `user_id` is null (not unknown). -/
def memberDesiredEmailOnly : ProjectMemberResourceModel :=
  { id := .unknown, projectId := .value "proj-1", userId := .null,
    email := .value "user@example.com", displayName := .unknown }

/-- C8, counterexample: a desired membership with a known `email` and a
null `user_id` passes validation, yet its create request body is empty —
the known email is not sent, because the body is chosen by checking
`user_id.IsUnknown()` only, and a null `user_id` takes the `user_id`
branch, whose empty value is then dropped by `omitempty`. -/
theorem c8_known_email_omitted_counterexample :
    ProjectMemberResource.validateConfig memberDesiredEmailOnly = []
    ∧ memberDesiredEmailOnly.email = TfString.value "user@example.com"
    ∧ (ProjectMemberResource.createRequest "https://api.example.com"
        memberDesiredEmailOnly).body = [] := by
  exact ⟨by decide, by decide, by decide⟩

/-- Membership of a key/value pair in the one-field-or-nothing list an
`omitempty` field emits. -/
theorem mem_ite_singleton (k v key val : String) :
    ((k, v) ∈ (if val = "" then ([] : List (String × String)) else [(key, val)])) ↔
      k = key ∧ v = val ∧ v ≠ "" := by
  by_cases h : val = ""
  · simp only [if_pos h, List.not_mem_nil, false_iff]
    rintro ⟨-, rfl, hne⟩
    exact hne h
  · simp only [if_neg h, List.mem_singleton, Prod.ext_iff]
    constructor
    · rintro ⟨rfl, rfl⟩
      exact ⟨rfl, rfl, h⟩
    · rintro ⟨rfl, rfl, -⟩
      exact ⟨rfl, rfl⟩

/-- C8, amended: the membership create request body is decided solely by
whether `user_id` is unknown: it carries the field `email` with the desired
email string exactly when `user_id` is unknown and that string is
non-empty, and the field `user_id` with the desired user id string exactly
when `user_id` is not unknown (known or null) and that string is non-empty;
nothing else is ever in the body — in particular a known email alongside a
null `user_id` is omitted. -/
theorem c8_create_body_fields (endpoint : String) (d : ProjectMemberResourceModel)
    (k v : String) :
    (k, v) ∈ (ProjectMemberResource.createRequest endpoint d).body ↔
      (d.userId.isUnknown = true ∧ k = "email" ∧ v = d.email.valueString ∧ v ≠ "")
      ∨ (d.userId.isUnknown = false ∧ k = "user_id" ∧ v = d.userId.valueString ∧ v ≠ "") := by
  rcases hu : d.userId with ⟨s⟩ | _ | _ <;>
    simp [ProjectMemberResource.createRequest, ProjectMemberCreateRequest.jsonFields,
      hu, TfString.isUnknown, TfString.valueString, mem_ite_singleton]
  all_goals
    constructor
    · rintro ⟨ha, hk, rfl⟩
      exact ⟨hk, rfl, ha⟩
    · rintro ⟨hk, rfl, hv⟩
      exact ⟨hv, hk, rfl⟩

/-- C9: the transport decorator forwards exactly one request per incoming
request (no retry, whatever the wrapped transport answers — 401 included),
that forwarded request carries `Authorization: Bearer <key>` and is
otherwise the incoming request (same method, URL and body), and the
decorator is a structure of exactly the key and the wrapped transport;
provider configuration uses the wrapped decorator when a key is configured
and the untouched default transport — requests unmodified — when the key
is null and the environment supplies none. -/
theorem c9_authenticated_transport (t : AuthenticatedTransport) (req : HttpRequest)
    (key : String) (base : HttpRequest → HttpResponse) :
    (∃ r, t.forwardedRequests req = [r]
        ∧ ("Authorization", "Bearer " ++ t.apiKey) ∈ r.headers
        ∧ r.method = req.method ∧ r.url = req.url ∧ r.body = req.body
        ∧ t.roundTrip req = t.transport r)
    ∧ SwitchcloudProvider.configureTransport TfString.null "" base req = base req
    ∧ SwitchcloudProvider.configureTransport (TfString.value key) "" base req =
        base (req.setHeader "Authorization" ("Bearer " ++ key)) := by
  refine ⟨⟨t.authRequest req, rfl, ?_, rfl, rfl, rfl, rfl⟩, rfl, rfl⟩
  simp [AuthenticatedTransport.authRequest, HttpRequest.setHeader]

/-- C10: the data source Read issues its one GET against the collection
endpoint — the request is a function of the configured endpoint alone, so
no attribute (in particular not `id`) selects a by-id URL; on a 200 list
answer the first project whose name equals the required `name` argument
populates every attribute, and when no project matches, the outcome is a
`Not Found` error diagnostic, not a removed-from-state outcome. -/
theorem c10_data_source_read_by_name (endpoint : String)
    (data : ProjectDataSourceModel) (raw : String) (projects : List Project) :
    ProjectDataSource.readRequest endpoint =
      { method := "GET", url := trimSuffix endpoint "/" ++ "/api/v1/projects",
        headers := [("Accept", "application/json")], body := [] }
    ∧ (projects.find? (fun p => p.name == data.name.valueString) = none →
        ProjectDataSource.readHandle data { status := 200, raw := raw, parsed := some projects } =
          ReadResult.failed
            { summary := "Not Found",
              detail := "No project found with name: " ++ data.name.valueString })
    ∧ ∀ project, projects.find? (fun p => p.name == data.name.valueString) = some project →
        ProjectDataSource.readHandle data { status := 200, raw := raw, parsed := some projects } =
          ReadResult.ok { data with
            id := .value project.id, name := .value project.name,
            description := .value project.description,
            organisationId := .value project.organisationId,
            archived := .value project.archived,
            archivedAt := .value project.archivedAt,
            createdAt := .value project.createdAt,
            updatedAt := .value project.updatedAt } := by
  refine ⟨rfl, ?_, ?_⟩
  · intro h
    simp [ProjectDataSource.readHandle, h]
  · intro project h
    simp [ProjectDataSource.readHandle, h]
